import Mathlib

/-!
# Verification of the PBL4 antivirus client core

A shallow embedding of the scanning pipeline (`YaraScanner.cpp`), the
real-time event queue and monitor lifecycle, and the quarantine manager
(`QuarantineManager.cpp`), together with theorems settling the claims about
their natural-language specification.

Machine integers are modelled as `Nat`/`Int`/`ℚ` with an explicit
`% 2 ^ 64` where 64-bit overflow matters.  The SHA-256 digest (the source
calls the OpenSSL function `EVP_sha256` over the file bytes) is implemented here in
full so that hash-related facts are decidable on concrete byte lists.
-/

namespace PBL4

/-! ## Small utilities -/

/-- ASCII lowercase of one character, mirroring `::tolower` as applied by
`scan_file_internal` to the path (inputs of interest are ASCII). -/
def asciiLower (c : Char) : Char :=
  if 'A' ≤ c ∧ c ≤ 'Z' then Char.ofNat (c.toNat + 32) else c

/-- Lowercase a string character-by-character (the
`std::transform(..., ::tolower)` in `scan_file_internal`). -/
def lowerStr (s : String) : String := String.mk (s.toList.map asciiLower)

/-- The `std::string::find(needle) != npos` contiguous-substring test. -/
def hasSubstr (hay needle : List Char) : Bool :=
  if needle.isPrefixOf hay then true
  else
    match hay with
    | [] => false
    | _ :: t => hasSubstr t needle

/-- Substring test on strings (case-sensitive, as in the source). -/
def strContains (hay needle : String) : Bool := hasSubstr hay.toList needle.toList

/-- Test that a string begins with a given status tag. -/
def strStartsWith (s pre : String) : Bool := pre.toList.isPrefixOf s.toList

/-- The `fs::path(p).filename()` of the plain paths used here: the part after
the last `/` or `\`. -/
def basename (p : String) : String :=
  String.mk ((p.toList.reverse.takeWhile (fun c => c ≠ '/' ∧ c ≠ '\\')).reverse)

/-- Association-list lookup (models `std::unordered_map::find` /
single-row SQL point lookups). -/
def alookup {α : Type} (m : List (String × α)) (k : String) : Option α :=
  (m.find? (fun e => e.1 == k)).map (·.2)

/-- Update the value stored under a key that is already present. -/
def aupdate {α : Type} (m : List (String × α)) (k : String) (v : α) : List (String × α) :=
  m.map (fun e => if e.1 == k then (k, v) else e)

/-- Remove a key from an association list. -/
def aremove {α : Type} (m : List (String × α)) (k : String) : List (String × α) :=
  m.filter (fun e => e.1 != k)

/-! ## SHA-256

A byte is a `Nat < 256`; a word is a `Nat < 2^32`.  This is the standard
FIPS 180-4 algorithm, used by `QuarantineManager::compute_hash` (via
OpenSSL) with lowercase-hex output. -/

/-- Truncate to a 32-bit word. -/
def w32 (n : Nat) : Nat := n % 4294967296

/-- Right-rotation of a 32-bit word. -/
def rotr32 (x n : Nat) : Nat := (x >>> n) ||| w32 (x <<< (32 - n))

def shaCh (x y z : Nat) : Nat := (x &&& y) ^^^ ((x ^^^ 4294967295) &&& z)

def shaMaj (x y z : Nat) : Nat := (x &&& y) ^^^ (x &&& z) ^^^ (y &&& z)

def bSig0 (x : Nat) : Nat := rotr32 x 2 ^^^ rotr32 x 13 ^^^ rotr32 x 22

def bSig1 (x : Nat) : Nat := rotr32 x 6 ^^^ rotr32 x 11 ^^^ rotr32 x 25

def sSig0 (x : Nat) : Nat := rotr32 x 7 ^^^ rotr32 x 18 ^^^ (x >>> 3)

def sSig1 (x : Nat) : Nat := rotr32 x 17 ^^^ rotr32 x 19 ^^^ (x >>> 10)

/-- The 64 SHA-256 round constants (FIPS 180-4, written in decimal). -/
def shaK : List Nat :=
  [1116352408, 1899447441, 3049323471, 3921009573, 961987163,
   1508970993, 2453635748, 2870763221, 3624381080, 310598401,
   607225278, 1426881987, 1925078388, 2162078206, 2614888103,
   3248222580, 3835390401, 4022224774, 264347078, 604807628,
   770255983, 1249150122, 1555081692, 1996064986, 2554220882,
   2821834349, 2952996808, 3210313671, 3336571891, 3584528711,
   113926993, 338241895, 666307205, 773529912, 1294757372,
   1396182291, 1695183700, 1986661051, 2177026350, 2456956037,
   2730485921, 2820302411, 3259730800, 3345764771, 3516065817,
   3600352804, 4094571909, 275423344, 430227734, 506948616,
   659060556, 883997877, 958139571, 1322822218, 1537002063,
   1747873779, 1955562222, 2024104815, 2227730452, 2361852424,
   2428436474, 2756734187, 3204031479, 3329325298]

/-- The initial SHA-256 state (FIPS 180-4, written in decimal). -/
def shaH0 : Array Nat :=
  #[1779033703, 3144134277, 1013904242, 2773480762,
    1359893119, 2600822924, 528734635, 1541459225]

/-- The `k` big-endian bytes of `n`. -/
def beBytes (k n : Nat) : List Nat :=
  (List.range k).map (fun i => (n >>> (8 * (k - 1 - i))) % 256)

/-- SHA-256 message padding: `0x80`, zeros to 56 mod 64, 64-bit bit length. -/
def shaPad (msg : List Nat) : List Nat :=
  msg ++ [128] ++ List.replicate ((119 - msg.length % 64) % 64) 0 ++ beBytes 8 (8 * msg.length)

/-- Group bytes into big-endian 32-bit words. -/
def bytesToWords : List Nat → List Nat
  | a :: b :: c :: d :: rest => (((a * 256 + b) * 256 + c) * 256 + d) :: bytesToWords rest
  | _ => []

/-- Extend 16 message-schedule words to 64. -/
def shaExtend (ws : Array Nat) : Array Nat :=
  (List.range 48).foldl
    (fun arr _ =>
      let n := arr.size
      arr.push (w32 (sSig1 (arr.getD (n - 2) 0) + arr.getD (n - 7) 0 +
                     sSig0 (arr.getD (n - 15) 0) + arr.getD (n - 16) 0)))
    ws

/-- One SHA-256 round on the 8-word working state. -/
def shaRound (st : Array Nat) (k w : Nat) : Array Nat :=
  let a := st.getD 0 0
  let b := st.getD 1 0
  let c := st.getD 2 0
  let d := st.getD 3 0
  let e := st.getD 4 0
  let f := st.getD 5 0
  let g := st.getD 6 0
  let h := st.getD 7 0
  let t1 := w32 (h + bSig1 e + shaCh e f g + k + w)
  let t2 := w32 (bSig0 a + shaMaj a b c)
  #[w32 (t1 + t2), a, b, c, w32 (d + t1), e, f, g]

/-- Compress one 64-byte block into the hash state. -/
def shaCompress (hh : Array Nat) (block : List Nat) : Array Nat :=
  let ws := shaExtend (Array.mk (bytesToWords block))
  let st := (List.range 64).foldl (fun st i => shaRound st (shaK.getD i 0) (ws.getD i 0)) hh
  (Array.range 8).map (fun i => w32 (hh.getD i 0 + st.getD i 0))

/-- Fold the compression function over all 64-byte blocks (structural
recursion on a fuel bound so the kernel can evaluate it). -/
def shaBlocksGo : Nat → Array Nat → List Nat → Array Nat
  | 0, hh, _ => hh
  | _, hh, [] => hh
  | n + 1, hh, l@(_ :: _) => shaBlocksGo n (shaCompress hh (l.take 64)) (l.drop 64)

/-- Fold the compression function over all 64-byte blocks. -/
def shaBlocks (hh : Array Nat) (l : List Nat) : Array Nat :=
  shaBlocksGo l.length hh l

/-- SHA-256 digest bytes of a byte-list message. -/
def sha256bytes (msg : List Nat) : List Nat :=
  ((shaBlocks shaH0 (shaPad msg)).toList.map (beBytes 4)).flatten

/-- One lowercase hex digit. -/
def hexDigitChar (n : Nat) : Char :=
  if n < 10 then Char.ofNat (48 + n) else Char.ofNat (87 + n)

/-- The `%02x` rendering of one byte. -/
def byteToHex (b : Nat) : String :=
  String.mk [hexDigitChar (b / 16), hexDigitChar (b % 16)]

/-- Lowercase-hex SHA-256 of a byte list, exactly as the C++ digest helpers
format their output (`bytes_to_hex` over the digest). -/
def sha256hex (msg : List Nat) : String :=
  String.join ((sha256bytes msg).map byteToHex)

/-! ## Scan results (`struct Result` in `YaraScanner.h`)

`date` is the wall-clock string and `nameDesktop` the host name; both are
environment-supplied strings here. -/

structure Result where
  isMalware : Bool := false
  date : String := ""
  nameDesktop : String := ""
  severity : String := ""
  filename : String := ""
  filepath : String := ""
  desc : String := ""
  md5 : String := ""
  sha1 : String := ""
  sha256 : String := ""
  hash : String := ""
  hash_type : String := ""
  detection_source : String := ""
  malware_name : String := ""
  matched_rules_count : Nat := 0
  matched_rules : List String := []
  deriving DecidableEq, Repr

/-- The policy-gate checks of `scan_file_internal`, in source order.  A tag
is recorded in the scan trace when the corresponding skip logic is armed,
i.e. when the branch of that check can short-circuit the scan at that point. -/
inductive GateCheck where
  | exclusion
  | fileCheck
  | oversize
  | trusted
  | whitelist
  deriving DecidableEq, Repr

/-- Environment of one `scan_file_internal` call: scanner flags, the per-file
stat results, the digest values the digest service returns for it, the
signature store, and the content-scanner outcome (`some matches` when the
YARA scan completes, `none` when it fails). -/
structure ScanEnv where
  initialized : Bool := true
  full_scan_override : Bool := false
  rules_loaded : Bool := true
  now : String := ""
  host : String := ""
  exists_regular : Bool := true
  file_size : Nat := 0
  trusted_publisher : Bool := false
  md5Hex : Option String := none
  sha1Hex : Option String := none
  sha256Hex : Option String := none
  whitelisted : String → String → Bool := fun _ _ => false
  sigLookup : String → String → Option String := fun _ _ => none
  yaraOutcome : Option (List String) := some []
  read_segments_ok : Bool := true

/-- Output of one `scan_file_internal` call: the results handed to the
callback in order, the number of `completed_count` increments performed
inside the call, and the trace of policy-gate checks that were armed. -/
structure ScanOut where
  emitted : List Result := []
  completed_inc : Nat := 0
  checks : List GateCheck := []
  deriving DecidableEq, Repr

/-- Constant `MAX_FILE_SIZE_SKIP` = 500 MiB. -/
def MAX_FILE_SIZE_SKIP : Nat := 500 * 1024 * 1024

/-- Constant `PARTIAL_FILE_MIN` = 10 MiB. -/
def PARTIAL_FILE_MIN : Nat := 10 * 1024 * 1024

/-- Constant `PARTIAL_FILE_MAX` = 500 MiB. -/
def PARTIAL_FILE_MAX : Nat := 500 * 1024 * 1024

/-- The excluded-path keywords of `scan_file_internal`, verbatim (note that
`PBL4_Client.exe` contains uppercase letters while it is matched against
the lowercased path). -/
def excludedKeywords : List String :=
  ["c:\\programdata\\pbl4_av_data",
   "\\device\\",
   "\\windows\\system32",
   "\\windows\\winsxs",
   "\\$recycle.bin",
   "system volume information",
   "\\appdata\\local\\temp",
   "node_modules",
   ".git",
   "all_rules.yarc",
   "full_hash.db",
   "PBL4_Client.exe"]

/-- The whitelist test of `scan_file_internal`: SHA-256, then SHA-1, then
MD5 against the `whitelist` table (lowercase type tags). -/
def whitelistHit (env : ScanEnv) : Bool :=
  (match env.sha256Hex with
   | some h => env.whitelisted h "sha256"
   | none => false) ||
  (match env.sha1Hex with
   | some h => env.whitelisted h "sha1"
   | none => false) ||
  (match env.md5Hex with
   | some h => env.whitelisted h "md5"
   | none => false)

/-- The sequential signature-store lookup: SHA-256, then SHA-1, then MD5;
yields `(matched hash, type tag, malware name)` of the first hit. -/
def firstHashHit (env : ScanEnv) : Option (String × String × String) :=
  (env.sha256Hex.bind fun h =>
    (env.sigLookup "SHA256" h).map fun nm => (h, "SHA256", nm)) <|>
  (env.sha1Hex.bind fun h =>
    (env.sigLookup "SHA1" h).map fun nm => (h, "SHA1", nm)) <|>
  (env.md5Hex.bind fun h =>
    (env.sigLookup "MD5" h).map fun nm => (h, "MD5", nm))

/-- An `ERROR`-severity result as built in the scan error paths. -/
def errResult (env : ScanEnv) (fname path d : String) : Result :=
  { isMalware := false, date := env.now, nameDesktop := env.host,
    severity := "ERROR", filename := fname, filepath := path, desc := d }

/-- The aggregated detection `rule_match_callback` builds at
`CALLBACK_MSG_SCAN_FINISHED`: one `Warning`/`YARA` result carrying the
cached digests, the match count, the ordered identifiers and the
`Matched by N rule(s): …` description. -/
def yaraDetection (env : ScanEnv) (fname path : String) (ms : List String) : Result :=
  { isMalware := true, date := env.now, nameDesktop := env.host,
    severity := "Warning", filename := fname, filepath := path,
    md5 := env.md5Hex.getD "", sha1 := env.sha1Hex.getD "",
    sha256 := env.sha256Hex.getD "",
    matched_rules_count := ms.length, matched_rules := ms,
    desc := "Matched by " ++ toString ms.length ++
            (if ms.length == 1 then " rule: " else " rules: ") ++
            String.intercalate ", " ms,
    detection_source := "YARA" }

/-- What the finished-scan callback emits: nothing when no rule matched,
otherwise the single aggregated detection. -/
def yaraAggregate (env : ScanEnv) (fname path : String) (ms : List String) : List Result :=
  if ms = [] then [] else [yaraDetection env fname path ms]

/-- The detection built from a signature-store hit (`r_base` plus the
fields set in the hit branch of `scan_file_internal`). -/
def hashDetection (env : ScanEnv) (fname path h ty nm : String) : Result :=
  { isMalware := true, date := env.now, nameDesktop := env.host,
    filename := fname, filepath := path,
    hash := h, hash_type := ty, detection_source := "HASH",
    severity := "High", desc := "Matched " ++ ty ++ " in DB",
    malware_name := nm }

/-- The results of the post-gate part of `scan_file_internal`:
signature-store lookup in the order SHA-256 → SHA-1 → MD5 (first hit emits
one `High`/`HASH` detection and returns), then the size-dispatched content
scan.  None of these branches increments `completed_count`. -/
def scanAfterGateEmitted (env : ScanEnv) (fname path : String) : List Result :=
  match firstHashHit env with
  | some (h, ty, nm) => [hashDetection env fname path h ty nm]
  | none =>
      if !env.rules_loaded then []
      else if env.file_size ≤ PARTIAL_FILE_MIN then
        match env.yaraOutcome with
        | some ms => yaraAggregate env fname path ms
        | none => [errResult env fname path "YARA full-file scan failed"]
      else if env.file_size ≤ PARTIAL_FILE_MAX then
        if !env.read_segments_ok then
          [errResult env fname path "Failed to read file segments for partial scan"]
        else
          match env.yaraOutcome with
          | some ms => yaraAggregate env fname path ms
          | none => [errResult env fname path "YARA partial scan failed"]
      else []

/-- The post-gate part of `scan_file_internal`, with the policy-gate trace
it was entered under. -/
def scanAfterGate (env : ScanEnv) (fname path : String) (tr : List GateCheck) : ScanOut :=
  { emitted := scanAfterGateEmitted env fname path, completed_inc := 0, checks := tr }

/-- Model of `YaraScanner::scan_file_internal`.  The exclusion-keyword check and the
exists/regular-file check always run; with `full_scan_override` set, the
oversize skip is disarmed (`skip_by_size && !full_scan_override`), the
publisher check is never invoked (`!full_scan_override && …`), and the
whitelist block is skipped — but the flow then still proceeds to the
signature-store lookup and the content scan. -/
def scan_file_internal (env : ScanEnv) (path : String) : ScanOut :=
  if !env.initialized then {} else
  let lower := lowerStr path
  if excludedKeywords.any (fun kw => strContains lower kw) then
    { emitted := [], completed_inc := 1, checks := [.exclusion] }
  else if !env.exists_regular then
    { emitted := [], completed_inc := 0, checks := [.exclusion, .fileCheck] }
  else
    let fname := basename path
    let skip_by_size := decide (env.file_size > MAX_FILE_SIZE_SKIP)
    if env.full_scan_override then
      scanAfterGate env fname path [.exclusion, .fileCheck]
    else if skip_by_size then
      { emitted := [{ isMalware := false, date := env.now, nameDesktop := env.host,
                      severity := "NOTICE", filename := fname, filepath := path,
                      desc := "Skipped: file too large (>500MB)",
                      detection_source := "POLICY" }],
        completed_inc := 1, checks := [.exclusion, .fileCheck, .oversize] }
    else if env.trusted_publisher then
      { emitted := [{ isMalware := false, date := env.now, nameDesktop := env.host,
                      severity := "NOTICE", filename := fname, filepath := path,
                      desc := "Skipped: trusted publisher signature",
                      detection_source := "POLICY" }],
        completed_inc := 1, checks := [.exclusion, .fileCheck, .oversize, .trusted] }
    else if whitelistHit env then
      { emitted := [{ isMalware := false, date := env.now, nameDesktop := env.host,
                      filename := fname, filepath := path, severity := "NOTICE",
                      desc := "Skipped: hash whitelisted",
                      detection_source := "WHITELIST" }],
        completed_inc := 1, checks := [.exclusion, .fileCheck, .oversize, .trusted, .whitelist] }
    else
      scanAfterGate env fname path [.exclusion, .fileCheck, .oversize, .trusted, .whitelist]

/-! ## Real-time event queue (`path_queue` + `last_event_time`) -/

structure QueueState where
  path_queue : List String := []
  last_event_time : List (String × Nat) := []
  deriving DecidableEq, Repr

/-- Model of `YaraScanner::enqueue_path_for_scan`: refresh `last_event_time[path]`;
append the path to the queue unless it is already queued. -/
def enqueue_path_for_scan (now : Nat) (path : String) (s : QueueState) : QueueState :=
  if path = "" then s
  else
    match alookup s.last_event_time path with
    | none =>
        { path_queue := s.path_queue ++ [path],
          last_event_time := (path, now) :: s.last_event_time }
    | some _ =>
        let m := aupdate s.last_event_time path now
        if s.path_queue.contains path then { s with last_event_time := m }
        else { path_queue := s.path_queue ++ [path], last_event_time := m }

/-- Model of `YaraScanner::pop_queued_path`: dequeue the front if non-empty. -/
def pop_queued_path (s : QueueState) : Option (String × QueueState) :=
  match s.path_queue with
  | [] => none
  | p :: rest => some (p, { s with path_queue := rest })

/-- Run a sequence of `(timestamp, path)` enqueues from a given state. -/
def runEnqueues (ops : List (Nat × String)) (s : QueueState) : QueueState :=
  ops.foldl (fun st op => enqueue_path_for_scan op.1 op.2 st) s

/-- The queue invariant of the spec: no duplicate paths in the queue, and
every queued path has a `last_event_time` entry. -/
def QueueInv (s : QueueState) : Prop :=
  (∀ p, s.path_queue.count p ≤ 1) ∧
  (∀ p, p ∈ s.path_queue → (alookup s.last_event_time p).isSome)

/-! ## Monitor lifecycle (`start_realtime` / `stop_realtime`) -/

inductive MonitorState where
  | Stopped
  | Starting
  | Running
  | Stopping
  deriving DecidableEq, Repr

/-- The fields of `YaraScanner` that the realtime lifecycle touches.  The
stored callback is abstracted to whether one is installed. -/
structure MonSt where
  monitor_state : MonitorState := .Stopped
  monitoring : Bool := false
  callbacks_enabled : Bool := false
  has_callback : Bool := false
  queue : QueueState := {}
  deriving DecidableEq, Repr

/-- Model of `YaraScanner::start_realtime`.  The CAS `Stopped → Starting` rejects any
other state without touching a field; then the callback is installed,
`monitoring` is set and the worker and watcher threads are spawned (spawn
success is an input), ending in `Running` — or rolled back to `Stopped`
with `monitoring` cleared on a spawn failure. -/
def start_realtime (worker_spawn_ok watcher_spawn_ok has_cb : Bool) (s : MonSt) :
    Bool × MonSt :=
  if s.monitor_state ≠ .Stopped then (false, s)
  else
    let s1 := { s with monitor_state := .Starting,
                       has_callback := has_cb, callbacks_enabled := true }
    let s2 := { s1 with monitoring := true }
    if !worker_spawn_ok then
      (false, { s2 with monitoring := false, monitor_state := .Stopped })
    else if !watcher_spawn_ok then
      (false, { s2 with monitoring := false, monitor_state := .Stopped })
    else (true, { s2 with monitor_state := .Running })

/-- Model of `YaraScanner::stop_realtime`.  If the CAS `Running → Stopping` fails,
only `monitoring` is cleared (and the queue waiters notified).  Otherwise
`monitoring` and `callbacks_enabled` are cleared, the stored callback is
destroyed, watcher I/O is cancelled, both threads are joined, the queue and
the last-seen map are cleared and the state becomes `Stopped`. -/
def stop_realtime (s : MonSt) : MonSt :=
  if s.monitor_state ≠ .Running then { s with monitoring := false }
  else
    let s1 := { s with monitor_state := .Stopping, monitoring := false }
    let s2 := { s1 with callbacks_enabled := false, has_callback := false }
    { s2 with queue := {}, monitor_state := .Stopped }

/-! ## Folder-scan throttle and progress -/

/-- Model of `throttle_after_work`, reduced to the sleep duration it inserts (ms):
no sleep below `min_work_ms` of work or for a duty cycle outside `(0,1)`,
otherwise `min(work·(1−duty)/duty, max_sleep_ms)` truncated to `int`. -/
def throttle_after_work (work_ms : ℤ) (duty : ℚ) (max_sleep_ms min_work_ms : ℤ) : ℤ :=
  if work_ms < min_work_ms then 0
  else if duty ≤ 0 ∨ 1 ≤ duty then 0
  else
    let S : ℚ := (work_ms : ℚ) * (1 - duty) / duty
    let sl : ℤ := ⌊min S ((max_sleep_ms : ℚ))⌋
    if 0 < sl then sl else 0

/-- The sleep `scan_folder` inserts after a file whose work took `work_ms`:
the call site passes the literals `0.5`, `500` and `2`; the configured
`throttle_duty_cycle` / `throttle_max_sleep_ms` members are not read. -/
def scan_folder_sleep (work_ms : ℤ) : ℤ :=
  throttle_after_work work_ms (1 / 2) 500 2

/-- The runtime throttle configuration members with their defaults. -/
structure ThrottleSettings where
  throttle_duty_cycle : ℚ := 1 / 2
  throttle_max_sleep_ms : ℤ := 500
  deriving DecidableEq, Repr

/-- Model of `YaraScanner::set_throttle_duty`: any duty outside `(0,1)` stores `0`. -/
def set_throttle_duty (duty : ℚ) (s : ThrottleSettings) : ThrottleSettings :=
  if duty ≤ 0 ∨ 1 ≤ duty then { s with throttle_duty_cycle := 0 }
  else { s with throttle_duty_cycle := duty }

/-- Model of `YaraScanner::set_throttle_max_sleep_ms`: negative caps clamp to `0`. -/
def set_throttle_max_sleep_ms (ms : ℤ) (s : ThrottleSettings) : ThrottleSettings :=
  { s with throttle_max_sleep_ms := if ms < 0 then 0 else ms }

/-- Model of `YaraScanner::get_throttle_settings`. -/
def get_throttle_settings (s : ThrottleSettings) : ℚ × ℤ :=
  (s.throttle_duty_cycle, s.throttle_max_sleep_ms)

/-- Model of `YaraScanner::get_progress_percent` on the `uint64_t` counters: the
multiplication `c * 100` wraps modulo `2^64`. -/
def get_progress_percent (total completed : Nat) : Nat :=
  if total = 0 then
    if completed = 0 then 0 else min 99 completed
  else
    let pct := completed * 100 % 2 ^ 64 / total
    if pct > 100 then 100 else pct

/-! ## Quarantine manager (`QuarantineManager.cpp`)

The disk is a map `path ↦ byte content`; the `quarantine_files` table is a
list of rows.  Configuration values read from `db_info` (or their
defaults), the free disk space, the computed quarantine total, the
generated unique stored filename and the success of the SQLite `INSERT`
are inputs of one `quarantine` call. -/

/-- The 8-byte repeating XOR obfuscation key (`DEFAULT_XOR_KEY`). -/
def DEFAULT_XOR_KEY : List Nat := [0xAA, 0x55, 0xC3, 0x7E, 0x9A, 0x1F, 0xB6, 0x4D]

/-- Model of `xor_transform_file` on in-memory content: byte `i` is XORed with key
byte `i mod 8` (the key position runs continuously over the stream). -/
def xorTransform (content : List Nat) : List Nat :=
  (List.range content.length).map
    (fun i => content.getD i 0 ^^^ DEFAULT_XOR_KEY.getD (i % 8) 0)

/-- A row of `quarantine_files` (the columns the core writes; `hash_type`
is constantly `sha256`). -/
structure QuarRecord where
  rid : Nat
  original_path : String
  stored_filename : String
  stored_path : String
  stored_size : Nat
  quarantined_at : Nat
  original_hash : String
  deleted : Bool := false
  restored : Bool := false
  deriving DecidableEq, Repr

structure QuarState where
  disk : List (String × List Nat) := []
  records : List QuarRecord := []
  next_id : Nat := 1
  clock : Nat := 0
  deriving DecidableEq, Repr

structure QuarEnv where
  free_bytes : Nat
  safe_free_bytes : Nat := 100 * 1024 * 1024
  folder_limit_bytes : Nat := 500 * 1024 * 1024
  quarantine_folder : String := "Q"
  quarantine_total : Nat
  stored_name : String
  insert_ok : Bool := true
  db_err : String := "unknown"
  deriving DecidableEq, Repr

/-- The selection loop of `prune_quarantine_if_needed`: walk the rows
oldest-first, accumulating `stored_size`, and stop once the accumulated
total reaches `needed`; returns the selected rows and the total. -/
def pruneScan (rs : List QuarRecord) (needed acc : Nat) : List QuarRecord × Nat :=
  match rs with
  | [] => ([], acc)
  | r :: rest =>
      if acc + r.stored_size ≥ needed then ([r], acc + r.stored_size)
      else
        let p := pruneScan rest needed (acc + r.stored_size)
        (r :: p.1, p.2)

/-- Stable insertion into a list already sorted by `quarantined_at`. -/
def insertByTime (r : QuarRecord) : List QuarRecord → List QuarRecord
  | [] => [r]
  | x :: t =>
      if x.quarantined_at < r.quarantined_at then x :: insertByTime r t
      else r :: x :: t

/-- Stable sort by `quarantined_at` ascending. -/
def sortByTime : List QuarRecord → List QuarRecord
  | [] => []
  | x :: t => insertByTime x (sortByTime t)

/-- The `SELECT … WHERE deleted = 0 ORDER BY quarantined_at ASC` of the
prune path. -/
def pruneCandidates (rs : List QuarRecord) : List QuarRecord :=
  sortByTime (rs.filter (fun r => !r.deleted))

/-- Model of `remove_quarantine_record_by_id`: unlink the stored file when present,
then delete the row. -/
def removeRecord (st : QuarState) (r : QuarRecord) : QuarState :=
  { st with disk := aremove st.disk (r.stored_path ++ "/" ++ r.stored_filename),
            records := st.records.filter (fun x => x.rid != r.rid) }

/-- Model of `QuarantineManager::prune_quarantine_if_needed`: `none` when the
non-deleted rows cannot reclaim `needed` bytes, otherwise the freed total
(the accumulated selected sizes) and the state after deleting them. -/
def prune_quarantine_if_needed (needed : Nat) (st : QuarState) :
    Option (Nat × QuarState) :=
  if needed = 0 then some (0, st)
  else
    let p := pruneScan (pruneCandidates st.records) needed 0
    if p.2 < needed then none
    else some (p.2, p.1.foldl removeRecord st)

/-- Model of `insert_quarantine_record`: append a row with `stored_path` the
quarantine folder, `quarantined_at` from the clock, `hash_type` of `sha256`
and `deleted = 0`. -/
def addRecord (env : QuarEnv) (st : QuarState) (path hash : String) (size : Nat) :
    QuarState :=
  { st with
    records := st.records ++
      [{ rid := st.next_id, original_path := path,
         stored_filename := env.stored_name, stored_path := env.quarantine_folder,
         stored_size := size, quarantined_at := st.clock, original_hash := hash }],
    next_id := st.next_id + 1, clock := st.clock + 1 }

/-- Model of `QuarantineManager::quarantine`, step by step from the source: missing
file, emergency delete under low disk, prune when over the folder limit,
XOR-obfuscated copy into the store, SHA-256 of the stored (post-XOR) file,
DB insert, removal of the original, and the returned status string.  In
the pruned branch the success of the insert is not consulted; in the normal
branch an insert failure removes the stored file and returns `ERROR: …`. -/
def quarantine (env : QuarEnv) (st : QuarState) (path : String) :
    String × QuarState :=
  match alookup st.disk path with
  | none => ("ERROR: File not found: " ++ path, st)
  | some content =>
    if env.free_bytes < env.safe_free_bytes then
      ("EMERGENCY_DELETED: free_bytes(" ++ toString env.free_bytes ++
         ") < safe_threshold(" ++ toString env.safe_free_bytes ++ "), deleted " ++ path,
       { st with disk := aremove st.disk path })
    else
      let stored_size := content.length
      let dest := env.quarantine_folder ++ "/" ++ env.stored_name
      let obf := xorTransform content
      if env.quarantine_total + stored_size > env.folder_limit_bytes then
        let needed := env.quarantine_total + stored_size - env.folder_limit_bytes
        match prune_quarantine_if_needed needed st with
        | none =>
            ("ERROR: Unable to make room in quarantine: " ++
               "Not enough reclaimable space in quarantine to satisfy request", st)
        | some (freed, st1) =>
            let st2 := { st1 with disk := (dest, obf) :: aremove st1.disk dest }
            let hash := sha256hex obf
            let st3 := if env.insert_ok then addRecord env st2 path hash stored_size else st2
            let st4 := { st3 with disk := aremove st3.disk path }
            ("PRUNED_AND_QUARANTINED: freed=" ++ toString freed ++
               " bytes; stored_as=" ++ dest, st4)
      else
        let st2 := { st with disk := (dest, obf) :: aremove st.disk dest }
        let hash := sha256hex obf
        let st3 := if env.insert_ok then addRecord env st2 path hash stored_size else st2
        let st4 := { st3 with disk := aremove st3.disk path }
        if env.insert_ok then
          ("QUARANTINED: stored_as=" ++ dest, st4)
        else
          ("ERROR: Failed to record quarantine in DB: " ++ env.db_err,
           { st4 with disk := aremove st4.disk dest })

/-! ## Concrete instances used by counterexamples and witnesses -/

/-- A file whose MD5, SHA-1 and SHA-256 are all present in the signature
store. -/
def c1Env : ScanEnv :=
  { md5Hex := some "m0", sha1Hex := some "h1", sha256Hex := some "h2",
    sigLookup := fun _ _ => some "Test.EICAR" }

/-- A 100 MiB file with no signature hit whose content scan matches the
rules `R1` and `R2`. -/
def c3Env : ScanEnv :=
  { file_size := 100 * 1024 * 1024,
    md5Hex := some "m0", sha1Hex := some "h1", sha256Hex := some "h2",
    yaraOutcome := some ["R1", "R2"] }

/-- A full-scan-override scan of a path that is not a regular file. -/
def c6Env : ScanEnv :=
  { full_scan_override := true, exists_regular := false }

/-- A quarantine call that must prune (total 60 + size 1 > limit 50) and
whose DB insert fails. -/
def c2Env : QuarEnv :=
  { free_bytes := 1000000000, safe_free_bytes := 0, folder_limit_bytes := 50,
    quarantine_folder := "qf", quarantine_total := 60, stored_name := "sn",
    insert_ok := false }

/-- One one-byte file `f` on disk and one old quarantine row of 60 bytes. -/
def c2St : QuarState :=
  { disk := [("f", [0])],
    records := [{ rid := 1, original_path := "o", stored_filename := "old",
                  stored_path := "qf", stored_size := 60, quarantined_at := 0,
                  original_hash := "h" }],
    next_id := 2, clock := 5 }

/-- A quarantine call with ample room and a succeeding insert. -/
def c7Env : QuarEnv :=
  { free_bytes := 1000000000, quarantine_total := 0,
    quarantine_folder := "qf", stored_name := "sn" }

/-- One one-byte file `f` (content `0x00`) on disk, no rows. -/
def c7St : QuarState := { disk := [("f", [0])] }

/-- The row `quarantine c7Env c7St "f"` inserts: its `original_hash` is the
digest of the obfuscated byte `0x00 XOR 0xAA = 0xAA`. -/
def c7Rec : QuarRecord :=
  { rid := 1, original_path := "f", stored_filename := "sn", stored_path := "qf",
    stored_size := 1, quarantined_at := 0, original_hash := sha256hex [0xAA] }

/-! ## Validation of the SHA-256 embedding (FIPS 180-4 test vectors) -/

set_option maxRecDepth 100000

/-- The empty message hashes to the well-known digest. -/
theorem sha256hex_empty :
    sha256hex [] = "e3b0c44298fc1c149afbf4c8996fb92427ae41e4649b934ca495991b7852b855" := by
  decide

/-- The message `abc` hashes to the standard test-vector digest. -/
theorem sha256hex_abc :
    sha256hex [0x61, 0x62, 0x63] =
      "ba7816bf8f01cfea414140de5dae2223b00361a396177a9cb410ff61f20015ad" := by
  decide

/-! ## C10, C9, C8, C4 -/

/-- C10: proved: `set_throttle_duty(d)` with `d ≤ 0` or `d ≥ 1` stores duty
`0.0` (rather than rejecting the call or keeping the previous value), a
subsequent `get_throttle_settings` reports duty `0.0`, and a duty of `0.0`
makes `throttle_after_work` sleep `0` ms. -/
theorem set_throttle_duty_out_of_range (d : ℚ) (s : ThrottleSettings)
    (h : d ≤ 0 ∨ 1 ≤ d) :
    (set_throttle_duty d s).throttle_duty_cycle = 0 ∧
    get_throttle_settings (set_throttle_duty d s) = (0, s.throttle_max_sleep_ms) ∧
    (∀ w M mw : ℤ, throttle_after_work w 0 M mw = 0) := by
  refine ⟨?_, ?_, ?_⟩
  · simp [set_throttle_duty, h]
  · simp [set_throttle_duty, get_throttle_settings, h]
  · intro w M mw
    unfold throttle_after_work
    by_cases hw : w < mw
    · rw [if_pos hw]
    · rw [if_neg hw, if_pos (Or.inl le_rfl)]

/-- Witness for C10 at `d = 2` on the default settings. -/
theorem set_throttle_duty_out_of_range_witness :
    ((2 : ℚ) ≤ 0 ∨ (1 : ℚ) ≤ 2) ∧
    ((set_throttle_duty 2 {}).throttle_duty_cycle = 0 ∧
     get_throttle_settings (set_throttle_duty 2 {}) = (0, ({} : ThrottleSettings).throttle_max_sleep_ms) ∧
     (∀ w M mw : ℤ, throttle_after_work w 0 M mw = 0)) :=
  ⟨Or.inr (by norm_num),
   set_throttle_duty_out_of_range 2 {} (Or.inr (by norm_num))⟩

/-- C9 counterexample: on the `uint64_t` counters the product
`completed * 100` wraps modulo `2^64`, so at
`total = completed = 2^62` the code returns `0` while
`floor(100 × completed / total)` clamped to `[0,100]` is `100`. -/
theorem get_progress_percent_overflow :
    get_progress_percent (2 ^ 62) (2 ^ 62) = 0 ∧
    min 100 (2 ^ 62 * 100 / 2 ^ 62) = 100 ∧
    get_progress_percent (2 ^ 62) (2 ^ 62) ≠ min 100 (2 ^ 62 * 100 / 2 ^ 62) := by
  refine ⟨?_, by norm_num, ?_⟩ <;>
    norm_num [get_progress_percent]

/-- C9 as amended: provided `completed * 100` does not overflow 64 bits,
`get_progress_percent` returns `floor(100 × completed / total)` clamped to
`[0,100]` when `total > 0`, `min(completed, 99)` when `total = 0` and
`completed > 0`, and `0` otherwise. -/
theorem get_progress_percent_spec (t c : Nat) (hof : c * 100 < 2 ^ 64) :
    (0 < t → get_progress_percent t c = min 100 (c * 100 / t)) ∧
    (t = 0 → 0 < c → get_progress_percent t c = min 99 c) ∧
    (t = 0 → c = 0 → get_progress_percent t c = 0) := by
  unfold get_progress_percent
  refine ⟨?_, ?_, ?_⟩
  · intro ht
    rw [if_neg (by omega), Nat.mod_eq_of_lt hof]
    rcases le_or_lt (c * 100 / t) 100 with hle | hgt
    · rw [if_neg (by omega)]; omega
    · rw [if_pos hgt]; omega
  · intro ht hc
    rw [if_pos ht, if_neg (by omega)]
  · intro ht hc
    rw [if_pos ht, if_pos hc]

/-- Witness for C9 (amended) at `total = 3`, `completed = 2`. -/
theorem get_progress_percent_spec_witness :
    2 * 100 < 2 ^ 64 ∧ 0 < 3 ∧ get_progress_percent 3 2 = min 100 (2 * 100 / 3) :=
  ⟨by norm_num, by norm_num,
   (get_progress_percent_spec 3 2 (by norm_num)).1 (by norm_num)⟩

/-- C8: proved: `scan_folder` passes the literals `0.5` and `500` to
`throttle_after_work`, so the runtime-configured duty and cap are ignored:
after `set_throttle_duty(1/4)` the stored duty is `1/4`, yet the sleep
after `12` ms of work is `12` ms, where the configured settings would give
`min(12·(1−1/4)/(1/4), 500) = 36` ms. -/
theorem scan_folder_sleep_ignores_settings :
    (set_throttle_duty (1 / 4) {}).throttle_duty_cycle = 1 / 4 ∧
    (set_throttle_duty (1 / 4) {}).throttle_max_sleep_ms = 500 ∧
    scan_folder_sleep 12 = 12 ∧
    throttle_after_work 12 (1 / 4) 500 2 = 36 ∧
    (12 : ℤ) ≠ 36 := by
  refine ⟨by norm_num [set_throttle_duty], by norm_num [set_throttle_duty], ?_, ?_, by norm_num⟩
  · unfold scan_folder_sleep throttle_after_work
    rw [if_neg (by norm_num), if_neg (by norm_num)]
    have hmin : min ((12 : ℤ) * (1 - 1 / 2 : ℚ) / (1 / 2)) ((500 : ℤ) : ℚ) = ((12 : ℤ) : ℚ) := by
      norm_num [min_def]
    simp only [hmin, Int.floor_intCast]
    norm_num
  · unfold throttle_after_work
    rw [if_neg (by norm_num), if_neg (by norm_num)]
    have hmin : min ((12 : ℤ) * (1 - 1 / 4 : ℚ) / (1 / 4)) ((500 : ℤ) : ℚ) = ((36 : ℤ) : ℚ) := by
      norm_num [min_def]
    simp only [hmin, Int.floor_intCast]
    norm_num

/-- C4: proved: `start_realtime` on a monitor that is not `Stopped` returns
`false` and leaves the whole state unchanged; `stop_realtime` on a
`Running` monitor ends `Stopped` with an empty queue, an empty last-seen
map and callbacks disabled. -/
theorem realtime_lifecycle (s : MonSt) (w k c : Bool) :
    (s.monitor_state ≠ .Stopped → start_realtime w k c s = (false, s)) ∧
    (s.monitor_state = .Running →
      (stop_realtime s).monitor_state = .Stopped ∧
      (stop_realtime s).queue.path_queue = [] ∧
      (stop_realtime s).queue.last_event_time = [] ∧
      (stop_realtime s).callbacks_enabled = false) := by
  constructor
  · intro h
    unfold start_realtime
    rw [if_pos h]
  · intro h
    unfold stop_realtime
    rw [if_neg (by simp [h])]
    simp [QueueState.path_queue, QueueState.last_event_time]

/-- Witness for C4: a `Starting` monitor rejects `start_realtime`; a
`Running` monitor stops cleanly. -/
theorem realtime_lifecycle_witness :
    (start_realtime true true true { monitor_state := .Starting } =
      (false, { monitor_state := .Starting })) ∧
    ((stop_realtime { monitor_state := .Running }).monitor_state = .Stopped ∧
     (stop_realtime { monitor_state := .Running }).queue.path_queue = [] ∧
     (stop_realtime { monitor_state := .Running }).queue.last_event_time = [] ∧
     (stop_realtime { monitor_state := .Running }).callbacks_enabled = false) :=
  ⟨(realtime_lifecycle { monitor_state := .Starting } true true true).1 (by decide),
   (realtime_lifecycle { monitor_state := .Running } true true true).2 (by decide)⟩

/-! ## C5: the event-queue invariant -/

/-- Lookup steps through a cons cell. -/
theorem alookup_cons {α : Type} (k x : String) (v : α) (m : List (String × α)) :
    alookup ((k, v) :: m) x = if (k == x) = true then some v else alookup m x := by
  by_cases h : (k == x) = true
  · rw [if_pos h]
    simp [alookup, List.find?_cons_of_pos, h]
  · rw [if_neg h]
    simp only [alookup, List.find?]
    rw [show ((k, v).1 == x) = false by simpa using h]

/-- A lookup hits iff some entry carries the key. -/
theorem alookup_isSome_iff {α : Type} (m : List (String × α)) (x : String) :
    (alookup m x).isSome = true ↔ ∃ e ∈ m, e.1 = x := by
  simp [alookup, List.find?_isSome]

/-- Lemma: `aupdate` only rewrites values, never keys. -/
theorem aupdate_entry_fst {α : Type} (a : String × α) (k : String) (v : α) :
    (if (a.1 == k) = true then (k, v) else a).1 = a.1 := by
  by_cases h : (a.1 == k) = true
  · rw [if_pos h]
    exact (eq_of_beq h).symm
  · rw [if_neg h]

/-- Updating a value leaves the hit/miss status of every key unchanged. -/
theorem alookup_aupdate_isSome {α : Type} (m : List (String × α)) (k x : String) (v : α) :
    (alookup (aupdate m k v) x).isSome = (alookup m x).isSome := by
  have : ((alookup (aupdate m k v) x).isSome = true) ↔ ((alookup m x).isSome = true) := by
    rw [alookup_isSome_iff, alookup_isSome_iff]
    constructor
    · rintro ⟨e, he, hx⟩
      rw [aupdate, List.mem_map] at he
      obtain ⟨a, ha, rfl⟩ := he
      exact ⟨a, ha, by rw [aupdate_entry_fst] at hx; exact hx⟩
    · rintro ⟨e, he, hx⟩
      refine ⟨if (e.1 == k) = true then (k, v) else e, ?_, ?_⟩
      · rw [aupdate, List.mem_map]
        exact ⟨e, he, rfl⟩
      · rw [aupdate_entry_fst]; exact hx
  exact Bool.eq_iff_iff.mpr this

/-- One enqueue preserves the queue invariant. -/
theorem queue_inv_enqueue (now : Nat) (p : String) (s : QueueState) (h : QueueInv s) :
    QueueInv (enqueue_path_for_scan now p s) := by
  obtain ⟨hcount, hmem⟩ := h
  unfold enqueue_path_for_scan
  by_cases hp : p = ""
  · rw [if_pos hp]; exact ⟨hcount, hmem⟩
  rw [if_neg hp]
  cases hl : alookup s.last_event_time p with
  | none =>
      have hpq : p ∉ s.path_queue := by
        intro hmem'
        have := hmem p hmem'
        rw [hl] at this
        simp at this
      constructor
      · intro q
        rw [List.count_append]
        by_cases hq : q = p
        · subst hq
          rw [List.count_eq_zero.mpr hpq]
          simp [List.count_singleton']
        · rw [List.count_singleton']
          rw [if_neg (fun hh => hq hh.symm)]
          exact hcount q
      · intro q hq
        rw [List.mem_append] at hq
        rw [alookup_cons]
        by_cases hpq' : (p == q) = true
        · rw [if_pos hpq']; rfl
        · rw [if_neg hpq']
          rcases hq with hq | hq
          · exact hmem q hq
          · simp at hq
            subst hq
            simp at hpq'
  | some t0 =>
      by_cases hinq : (s.path_queue.contains p) = true
      · rw [if_pos hinq]
        refine ⟨hcount, ?_⟩
        intro q hq
        show (alookup (aupdate s.last_event_time p now) q).isSome = true
        rw [alookup_aupdate_isSome]
        exact hmem q hq
      · rw [if_neg hinq]
        have hpq : p ∉ s.path_queue := by
          intro hmem'
          exact hinq (by simpa using hmem')
        constructor
        · intro q
          rw [List.count_append]
          by_cases hq : q = p
          · subst hq
            rw [List.count_eq_zero.mpr hpq]
            simp [List.count_singleton']
          · rw [List.count_singleton']
            rw [if_neg (fun hh => hq hh.symm)]
            exact hcount q
        · intro q hq
          rw [List.mem_append] at hq
          show (alookup (aupdate s.last_event_time p now) q).isSome = true
          rw [alookup_aupdate_isSome]
          rcases hq with hq | hq
          · exact hmem q hq
          · simp at hq
            subst hq
            rw [hl]
            rfl

/-- The invariant holds along any enqueue sequence. -/
theorem runEnqueues_inv (ops : List (Nat × String)) (s : QueueState) (h : QueueInv s) :
    QueueInv (runEnqueues ops s) := by
  induction ops generalizing s with
  | nil => exact h
  | cons op rest ih => exact ih _ (queue_inv_enqueue op.1 op.2 s h)

/-- C5: proved: after any sequence of enqueues from the initial state, every
path occurs at most once in the queue, and every queued path has a
last-seen entry. -/
theorem enqueue_queue_invariant (ops : List (Nat × String)) (p : String) :
    (runEnqueues ops {}).path_queue.count p ≤ 1 ∧
    (p ∈ (runEnqueues ops {}).path_queue →
      (alookup (runEnqueues ops {}).last_event_time p).isSome) := by
  have h := runEnqueues_inv ops {} ⟨fun q => by simp [QueueState.path_queue],
                                    fun q hq => by simp [QueueState.path_queue] at hq⟩
  exact ⟨h.1 p, h.2 p⟩

/-- Witness for C5: two bursts on `a` and one on `b` leave `a` queued once
with a live last-seen entry. -/
theorem enqueue_queue_invariant_witness :
    (runEnqueues [(0, "a"), (1, "a"), (2, "b")] {}).path_queue.count "a" ≤ 1 ∧
    (alookup (runEnqueues [(0, "a"), (1, "a"), (2, "b")] {}).last_event_time "a").isSome := by
  have h := enqueue_queue_invariant [(0, "a"), (1, "a"), (2, "b")] "a"
  exact ⟨h.1, h.2 (by decide)⟩

/-! ## C1, C3, C6: the scan pipeline -/

/-- Under a passed policy gate the scan reduces to the post-gate phase. -/
theorem scan_reaches_lookup (env : ScanEnv) (path : String)
    (hinit : env.initialized = true)
    (hexc : (excludedKeywords.any fun kw => strContains (lowerStr path) kw) = false)
    (hex : env.exists_regular = true)
    (hsz : env.file_size ≤ MAX_FILE_SIZE_SKIP ∨ env.full_scan_override = true)
    (htru : env.trusted_publisher = false ∨ env.full_scan_override = true)
    (hwl : whitelistHit env = false ∨ env.full_scan_override = true) :
    ∃ tr, scan_file_internal env path = scanAfterGate env (basename path) path tr := by
  by_cases hov : env.full_scan_override = true
  · exact ⟨[.exclusion, .fileCheck],
      by simp [scan_file_internal, hinit, hexc, hex, hov]⟩
  · rw [Bool.not_eq_true] at hov
    have hsz' : env.file_size ≤ MAX_FILE_SIZE_SKIP := by
      rcases hsz with h | h
      · exact h
      · rw [hov] at h; exact absurd h (by simp)
    have htru' : env.trusted_publisher = false := by
      rcases htru with h | h
      · exact h
      · rw [hov] at h; exact absurd h (by simp)
    have hwl' : whitelistHit env = false := by
      rcases hwl with h | h
      · exact h
      · rw [hov] at h; exact absurd h (by simp)
    have hskip : decide (env.file_size > MAX_FILE_SIZE_SKIP) = false :=
      decide_eq_false (not_lt.mpr hsz')
    exact ⟨[.exclusion, .fileCheck, .oversize, .trusted, .whitelist],
      by simp [scan_file_internal, hinit, hexc, hex, hov, hskip, htru', hwl']⟩

/-- C1: proved: with the digests computed and the gate passed, the signature
store is consulted SHA-256 → SHA-1 → MD5; the first hit emits exactly one
detection — `is_malware = true`, severity `High`, source `HASH`, the
matched hash and its type, the malware name from the store, description
`Matched <TYPE> in DB` — and nothing else runs.  In particular when all
three hashes are present in the store, the emitted `hash_type` is
`SHA256`. -/
theorem signature_hash_precedence (env : ScanEnv) (path : String)
    (hinit : env.initialized = true)
    (hexc : (excludedKeywords.any fun kw => strContains (lowerStr path) kw) = false)
    (hex : env.exists_regular = true)
    (hsz : env.file_size ≤ MAX_FILE_SIZE_SKIP ∨ env.full_scan_override = true)
    (htru : env.trusted_publisher = false ∨ env.full_scan_override = true)
    (hwl : whitelistHit env = false ∨ env.full_scan_override = true) :
    (∀ h nm, env.sha256Hex = some h → env.sigLookup "SHA256" h = some nm →
       (scan_file_internal env path).emitted =
         [hashDetection env (basename path) path h "SHA256" nm]) ∧
    ((∀ h, env.sha256Hex = some h → env.sigLookup "SHA256" h = none) →
     ∀ h nm, env.sha1Hex = some h → env.sigLookup "SHA1" h = some nm →
       (scan_file_internal env path).emitted =
         [hashDetection env (basename path) path h "SHA1" nm]) ∧
    ((∀ h, env.sha256Hex = some h → env.sigLookup "SHA256" h = none) →
     (∀ h, env.sha1Hex = some h → env.sigLookup "SHA1" h = none) →
     ∀ h nm, env.md5Hex = some h → env.sigLookup "MD5" h = some nm →
       (scan_file_internal env path).emitted =
         [hashDetection env (basename path) path h "MD5" nm]) := by
  obtain ⟨tr, heq⟩ := scan_reaches_lookup env path hinit hexc hex hsz htru hwl
  rw [heq]
  refine ⟨?_, ?_, ?_⟩
  · intro h nm h256 hsig
    show scanAfterGateEmitted env (basename path) path = _
    unfold scanAfterGateEmitted
    rw [show firstHashHit env = some (h, "SHA256", nm) by
          simp [firstHashHit, h256, hsig]]
  · intro hm256 h nm h1 hsig
    have hfst : (env.sha256Hex.bind fun h =>
        (env.sigLookup "SHA256" h).map fun nm => (h, "SHA256", nm)) = none := by
      cases hc : env.sha256Hex with
      | none => rfl
      | some x => simp [hm256 x hc]
    show scanAfterGateEmitted env (basename path) path = _
    unfold scanAfterGateEmitted
    rw [show firstHashHit env = some (h, "SHA1", nm) by
          unfold firstHashHit
          rw [hfst]
          simp [h1, hsig]]
  · intro hm256 hm1 h nm hm hsig
    have hfst : (env.sha256Hex.bind fun h =>
        (env.sigLookup "SHA256" h).map fun nm => (h, "SHA256", nm)) = none := by
      cases hc : env.sha256Hex with
      | none => rfl
      | some x => simp [hm256 x hc]
    have hsnd : (env.sha1Hex.bind fun h =>
        (env.sigLookup "SHA1" h).map fun nm => (h, "SHA1", nm)) = none := by
      cases hc : env.sha1Hex with
      | none => rfl
      | some x => simp [hm1 x hc]
    show scanAfterGateEmitted env (basename path) path = _
    unfold scanAfterGateEmitted
    rw [show firstHashHit env = some (h, "MD5", nm) by
          unfold firstHashHit
          rw [hfst, hsnd]
          simp [hm, hsig]]

/-- Witness for C1: a file whose MD5, SHA-1 and SHA-256 are all in the
store is reported through its SHA-256. -/
theorem signature_hash_precedence_witness :
    (scan_file_internal c1Env "f").emitted =
      [hashDetection c1Env (basename "f") "f" "h2" "SHA256" "Test.EICAR"] :=
  (signature_hash_precedence c1Env "f" rfl (by decide) rfl (Or.inl (by decide))
    (Or.inl rfl) (Or.inl (by decide))).1 "h2" "Test.EICAR" rfl rfl

/-- C3 counterexample: two matching rules yield the description
`Matched by 2 rules: R1, R2`, not `Matched 2 rules: R1, R2` as the claim
states. -/
theorem yara_description_counterexample :
    (scan_file_internal c3Env "f").emitted.map Result.desc =
      ["Matched by 2 rules: R1, R2"] ∧
    "Matched by 2 rules: R1, R2" ≠ "Matched 2 rules: R1, R2" := by
  constructor
  · decide
  · decide

/-- C3 as amended: when the content scan completes with `N ≥ 1` matched
rules, exactly one aggregated detection is emitted — `is_malware = true`,
severity `Warning`, source `YARA`, `matched_rules_count = N`, the ordered
rule list, the cached digests, and description
`Matched by N rule(s): r1, r2, …`; with no match, nothing is emitted. -/
theorem yara_aggregation (env : ScanEnv) (path : String)
    (hinit : env.initialized = true)
    (hexc : (excludedKeywords.any fun kw => strContains (lowerStr path) kw) = false)
    (hex : env.exists_regular = true)
    (hsz : env.file_size ≤ MAX_FILE_SIZE_SKIP ∨ env.full_scan_override = true)
    (htru : env.trusted_publisher = false ∨ env.full_scan_override = true)
    (hwl : whitelistHit env = false ∨ env.full_scan_override = true)
    (hmiss : firstHashHit env = none)
    (hrules : env.rules_loaded = true)
    (hsz2 : env.file_size ≤ PARTIAL_FILE_MAX)
    (hread : env.read_segments_ok = true)
    (ms : List String) (hy : env.yaraOutcome = some ms) :
    (ms ≠ [] → (scan_file_internal env path).emitted =
       [{ isMalware := true, date := env.now, nameDesktop := env.host,
          severity := "Warning", filename := basename path, filepath := path,
          md5 := env.md5Hex.getD "", sha1 := env.sha1Hex.getD "",
          sha256 := env.sha256Hex.getD "",
          matched_rules_count := ms.length, matched_rules := ms,
          desc := "Matched by " ++ toString ms.length ++
                  (if ms.length == 1 then " rule: " else " rules: ") ++
                  String.intercalate ", " ms,
          detection_source := "YARA" }]) ∧
    (ms = [] → (scan_file_internal env path).emitted = []) := by
  obtain ⟨tr, heq⟩ := scan_reaches_lookup env path hinit hexc hex hsz htru hwl
  rw [heq]
  have hemit : scanAfterGateEmitted env (basename path) path =
      yaraAggregate env (basename path) path ms := by
    unfold scanAfterGateEmitted
    rw [hmiss, hrules]
    by_cases hsmall : env.file_size ≤ PARTIAL_FILE_MIN
    · simp [hsmall, hy]
    · simp [hsmall, hsz2, hread, hy]
  constructor
  · intro hne
    show scanAfterGateEmitted env (basename path) path = _
    rw [hemit]
    unfold yaraAggregate yaraDetection
    rw [if_neg hne]
  · intro hnil
    show scanAfterGateEmitted env (basename path) path = _
    rw [hemit]
    unfold yaraAggregate
    rw [if_pos hnil]

/-- Witness for C3 (amended): the 100 MiB two-rule scan emits exactly the
aggregated detection. -/
theorem yara_aggregation_witness :
    (scan_file_internal c3Env "f").emitted =
      [{ isMalware := true, date := c3Env.now, nameDesktop := c3Env.host,
         severity := "Warning", filename := basename "f", filepath := "f",
         md5 := c3Env.md5Hex.getD "", sha1 := c3Env.sha1Hex.getD "",
         sha256 := c3Env.sha256Hex.getD "",
         matched_rules_count := (["R1", "R2"] : List String).length,
         matched_rules := ["R1", "R2"],
         desc := "Matched by " ++ toString (["R1", "R2"] : List String).length ++
                 (if (["R1", "R2"] : List String).length == 1 then " rule: " else " rules: ") ++
                 String.intercalate ", " ["R1", "R2"],
         detection_source := "YARA" }] :=
  (yara_aggregation c3Env "f" rfl (by decide) rfl (Or.inl (by decide)) (Or.inl rfl)
    (Or.inl (by decide)) (by decide) rfl (by decide) rfl ["R1", "R2"] rfl).1 (by decide)

/-- C6 counterexample: with `full_scan_override` set, scanning a path
that is not a regular file still runs (and is stopped by) the
exists/regular-file check — the trace is not just the exclusion check. -/
theorem full_scan_file_check_counterexample :
    (scan_file_internal c6Env "f").checks = [GateCheck.exclusion, GateCheck.fileCheck] ∧
    GateCheck.fileCheck ∈ (scan_file_internal c6Env "f").checks ∧
    (scan_file_internal c6Env "f").emitted = [] := by
  refine ⟨by decide, by decide, by decide⟩

/-- C6 as amended: with `full_scan_override` set, only the
exclusion-path check and the exists/regular-file check run; the oversized,
trusted-publisher and whitelist checks are bypassed. -/
theorem full_scan_override_checks (env : ScanEnv) (path : String)
    (hov : env.full_scan_override = true) :
    GateCheck.oversize ∉ (scan_file_internal env path).checks ∧
    GateCheck.trusted ∉ (scan_file_internal env path).checks ∧
    GateCheck.whitelist ∉ (scan_file_internal env path).checks := by
  cases hinit : env.initialized with
  | false => simp [scan_file_internal, hinit, ScanOut.checks]
  | true =>
      cases hexc : (excludedKeywords.any fun kw => strContains (lowerStr path) kw) with
      | true => simp [scan_file_internal, hinit, hexc]
      | false =>
          cases hex : env.exists_regular with
          | false => simp [scan_file_internal, hinit, hexc, hex]
          | true => simp [scan_file_internal, hinit, hexc, hex, hov, scanAfterGate]

/-- Witness for C6 (amended) on a concrete override scan. -/
theorem full_scan_override_checks_witness :
    GateCheck.oversize ∉ (scan_file_internal c6Env "f").checks ∧
    GateCheck.trusted ∉ (scan_file_internal c6Env "f").checks ∧
    GateCheck.whitelist ∉ (scan_file_internal c6Env "f").checks :=
  full_scan_override_checks c6Env "f" rfl

/-! ## C2, C7: the quarantine manager -/

/-- C2: proved: in the pruned branch the result of the `quarantine_files`
insert is ignored — with a failing insert, `quarantine` still returns
`PRUNED_AND_QUARANTINED: …`, records nothing, leaves the obfuscated copy
on disk as an orphan, and removes the original.  (The normal branch does
delete the stored file and return `ERROR: …`.) -/
theorem quarantine_pruned_insert_failure :
    (quarantine c2Env c2St "f").1 =
      "PRUNED_AND_QUARANTINED: freed=60 bytes; stored_as=qf/sn" ∧
    strStartsWith (quarantine c2Env c2St "f").1 "ERROR:" = false ∧
    alookup (quarantine c2Env c2St "f").2.disk "qf/sn" = some [0xAA] ∧
    (quarantine c2Env c2St "f").2.records = [] ∧
    alookup (quarantine c2Env c2St "f").2.disk "f" = none := by
  refine ⟨by decide, by decide, by decide, by decide, by decide⟩

/-- A `remove_quarantine_record_by_id` never adds rows. -/
theorem removeRecord_records (st : QuarState) (x r : QuarRecord)
    (h : x ∈ (removeRecord st r).records) : x ∈ st.records := by
  unfold removeRecord at h
  exact (List.mem_filter.mp h).1

/-- Pruning a list of rows never adds rows. -/
theorem foldl_removeRecord_records (l : List QuarRecord) (st : QuarState) (x : QuarRecord)
    (h : x ∈ (l.foldl removeRecord st).records) : x ∈ st.records := by
  induction l generalizing st with
  | nil => exact h
  | cons a t ih => exact removeRecord_records st x a (ih _ h)

/-- Pruning yields a subset of the original rows. -/
theorem prune_records_subset (needed : Nat) (st : QuarState) (freed : Nat) (st1 : QuarState)
    (h : prune_quarantine_if_needed needed st = some (freed, st1)) :
    ∀ x ∈ st1.records, x ∈ st.records := by
  unfold prune_quarantine_if_needed at h
  by_cases h0 : needed = 0
  · rw [if_pos h0] at h
    simp only [Option.some.injEq, Prod.mk.injEq] at h
    rw [← h.2]
    exact fun x hx => hx
  · rw [if_neg h0] at h
    by_cases hlt : (pruneScan (pruneCandidates st.records) needed 0).2 < needed
    · rw [if_pos hlt] at h
      cases h
    · rw [if_neg hlt] at h
      simp only [Option.some.injEq, Prod.mk.injEq] at h
      rw [← h.2]
      exact fun x hx => foldl_removeRecord_records _ st x hx

/-- C7 counterexample: quarantining the one-byte file `0x00` stores a
row whose `original_hash` is the SHA-256 of the obfuscated byte `0xAA` —
not the SHA-256 of the pre-XOR content. -/
theorem quarantine_original_hash_counterexample :
    xorTransform [0] = [0xAA] ∧
    (quarantine c7Env c7St "f").2.records.map QuarRecord.original_hash =
      [sha256hex [0xAA]] ∧
    sha256hex [0xAA] ≠ sha256hex [0] := by
  refine ⟨by decide, by decide, by decide⟩

/-- C7 as amended: every quarantine row created by `quarantine(path)` is
non-deleted, non-restored, and its `original_hash` is the SHA-256 of the
content of the stored file, i.e. of the bytes *after* the XOR obfuscation. -/
theorem quarantine_record_hash (env : QuarEnv) (st : QuarState) (path : String)
    (content : List Nat) (hdisk : alookup st.disk path = some content) :
    ∀ r : QuarRecord, r ∈ (quarantine env st path).2.records → r ∉ st.records →
      r.original_hash = sha256hex (xorTransform content) ∧
      r.deleted = false ∧ r.restored = false := by
  intro r hr hnot
  unfold quarantine at hr
  rw [hdisk] at hr
  dsimp only at hr
  by_cases hfree : env.free_bytes < env.safe_free_bytes
  · rw [if_pos hfree] at hr
    exact absurd hr hnot
  rw [if_neg hfree] at hr
  by_cases hlimit : env.quarantine_total + content.length > env.folder_limit_bytes
  · rw [if_pos hlimit] at hr
    rcases hp : prune_quarantine_if_needed
        (env.quarantine_total + content.length - env.folder_limit_bytes) st
      with _ | ⟨freed, st1⟩
    · rw [hp] at hr
      exact absurd hr hnot
    · rw [hp] at hr
      dsimp only at hr
      by_cases hins : env.insert_ok = true
      · rw [if_pos hins] at hr
        dsimp only [addRecord] at hr
        rw [List.mem_append] at hr
        rcases hr with hr | hr
        · exact absurd (prune_records_subset _ _ _ _ hp r hr) hnot
        · rw [List.mem_singleton] at hr
          subst hr
          exact ⟨rfl, rfl, rfl⟩
      · rw [if_neg hins] at hr
        dsimp only at hr
        exact absurd (prune_records_subset _ _ _ _ hp r hr) hnot
  · rw [if_neg hlimit] at hr
    cases hins : env.insert_ok with
    | true =>
        simp only [hins, if_true] at hr
        dsimp only [addRecord] at hr
        rw [List.mem_append] at hr
        rcases hr with hr | hr
        · exact absurd hr hnot
        · rw [List.mem_singleton] at hr
          subst hr
          exact ⟨rfl, rfl, rfl⟩
    | false =>
        simp only [hins, Bool.false_eq_true, if_false] at hr
        exact absurd hr hnot

/-- Witness for C7 (amended) on the concrete one-byte quarantine. -/
theorem quarantine_record_hash_witness :
    alookup c7St.disk "f" = some [0] ∧
    c7Rec ∈ (quarantine c7Env c7St "f").2.records ∧
    c7Rec.original_hash = sha256hex (xorTransform [0]) ∧
    c7Rec.deleted = false ∧ c7Rec.restored = false :=
  ⟨rfl, by decide,
   quarantine_record_hash c7Env c7St "f" [0] rfl c7Rec (by decide) (by decide)⟩

end PBL4
